import Mathlib

/-!
Verification of the toolruntime execution core: a shallow embedding of the
runtime router, the direct and proxy tool gateways, the container-spec
builder, the host-subprocess backend's error classification, and the engine
adapter, together with proofs of the behavioural properties claimed for them.

Go machine integers are modelled as `Int`; Go slices as `List`; Go `nil`
errors as `none`; fallible operations return an `Option` error or an
`Except`.  Interfaces consumed by the core (backends, runners, connections)
are modelled as explicit data: the outcome a collaborator would produce is
passed in as a value, so every embedded function is deterministic and
executable.
-/

namespace Toolruntime

/-- Error kinds the router can surface (`errors.go` sentinels plus the Go
`context` errors).  Backend errors are opaque to the router and carried as a
message.  -/
inductive RErr where
  | missingGateway
  | missingCode
  | invalidLimits
  | runtimeUnavailable (profile : String)
  | backendDenied (profile : String)
  | ctxCanceled
  | backendErr (msg : String)
deriving DecidableEq, Repr

/-- `Limits` from `types.go`: a bag of integer caps, zero meaning unlimited. -/
structure Limits where
  MaxToolCalls : Int := 0
  MaxChainSteps : Int := 0
  CPUQuotaMillis : Int := 0
  MemoryBytes : Int := 0
  PidsMax : Int := 0
  DiskBytes : Int := 0
deriving DecidableEq, Repr

/-- `Limits.Validate` from `types.go`: each field is checked, in declaration
order, to be non-negative; any negative field yields `ErrInvalidLimits`. -/
def Limits.Validate (l : Limits) : Option RErr :=
  if l.MaxToolCalls < 0 then some .invalidLimits
  else if l.MaxChainSteps < 0 then some .invalidLimits
  else if l.CPUQuotaMillis < 0 then some .invalidLimits
  else if l.MemoryBytes < 0 then some .invalidLimits
  else if l.PidsMax < 0 then some .invalidLimits
  else if l.DiskBytes < 0 then some .invalidLimits
  else none

/-- Some field of the limits bag is negative. -/
def Limits.hasNegativeField (l : Limits) : Prop :=
  l.MaxToolCalls < 0 ∨ l.MaxChainSteps < 0 ∨ l.CPUQuotaMillis < 0 ∨
  l.MemoryBytes < 0 ∨ l.PidsMax < 0 ∨ l.DiskBytes < 0

instance (l : Limits) : Decidable l.hasNegativeField := by
  unfold Limits.hasNegativeField; infer_instance

/-- `ToolCallRecord` from `types.go`.  `Duration` is in nanoseconds
(`time.Duration` is an `int64`). -/
structure ToolCallRecord where
  ToolID : String := ""
  BackendKind : String := ""
  Duration : Int := 0
  ErrorOp : String := ""
deriving DecidableEq, Repr

/-- A non-nil `ToolGateway` as the router observes it.  The router only
interrogates the gateway for the optional `toolCallRecorder` capability
(`GetToolCalls`); `trace = some t` models a gateway implementing it whose
snapshot is `t`, `trace = none` a gateway without the capability. -/
structure GatewayModel where
  trace : Option (List ToolCallRecord) := none
deriving DecidableEq, Repr

/-- `ExecuteRequest` from `types.go`.  `Gateway = none` models a nil
gateway.  Profiles are strings, as in the Go source. -/
structure ExecuteRequest where
  Language : String := ""
  Code : String := ""
  Timeout : Int := 0
  Limits : Toolruntime.Limits := {}
  Profile : String := ""
  Gateway : Option GatewayModel := none
deriving DecidableEq, Repr

/-- `ExecuteRequest.Validate` from `types.go`: gateway, then code, then
limits. -/
def ExecuteRequest.Validate (r : ExecuteRequest) : Option RErr :=
  if r.Gateway = none then some .missingGateway
  else if r.Code = "" then some .missingCode
  else r.Limits.Validate

/-- `ExecuteResult` from `types.go`, restricted to the fields the verified
claims observe.  `Backend` stands for `BackendInfo.Kind`. -/
structure ExecuteResult where
  Value : Option String := none
  Stdout : String := ""
  Stderr : String := ""
  ToolCalls : List ToolCallRecord := []
  Duration : Int := 0
  Backend : String := ""
deriving DecidableEq, Repr

/-- The `BackendUnsafeHost` kind constant from `types.go`. -/
def BackendUnsafeHost : String := "unsafe_host"

/-- A backend as the router consumes it (`Backend` interface): a constant
kind and an execute function returning Go's `(result, error)` pair.  The
backend's error is opaque to the router and modelled as a message. -/
structure Backend where
  Kind : String
  Exec : ExecuteRequest → ExecuteResult × Option String

/-- `DefaultRuntime` state (`runtime.go`): the profile→backend map, the
denied-profile set for the unsafe backend, and the default profile. -/
structure DefaultRuntime where
  backends : String → Option Backend
  denyUnsafeProfiles : String → Bool
  defaultProfile : String := ""

/-- Everything `DefaultRuntime.Execute` produces, plus whether the resolved
backend's `Execute` was invoked (it is the only side-effecting call the
router makes). -/
structure ExecOutcome where
  result : ExecuteResult
  error : Option RErr
  backendInvoked : Bool
deriving Repr

/-- The effective profile: the request's profile when non-empty, else the
runtime's default (`runtime.go`, `Execute`). -/
def DefaultRuntime.effProfile (r : DefaultRuntime) (req : ExecuteRequest) : String :=
  if req.Profile = "" then r.defaultProfile else req.Profile

/-- `DefaultRuntime.Execute` from `runtime.go`: context check, validation,
profile resolution, backend lookup, unsafe-denial policy, delegation, and
tool-call-trace harvesting from the gateway on success. -/
def DefaultRuntime.Execute (r : DefaultRuntime) (ctxCanceled : Bool)
    (req : ExecuteRequest) : ExecOutcome :=
  if ctxCanceled then ⟨{}, some .ctxCanceled, false⟩
  else match req.Validate with
  | some e => ⟨{}, some e, false⟩
  | none =>
    let profile := r.effProfile req
    match r.backends profile with
    | none => ⟨{}, some (.runtimeUnavailable profile), false⟩
    | some b =>
      if r.denyUnsafeProfiles profile ∧ b.Kind = BackendUnsafeHost then
        ⟨{}, some (.backendDenied profile), false⟩
      else
        match b.Exec req with
        | (result, some e) => ⟨result, some (.backendErr e), true⟩
        | (result, none) =>
          if result.ToolCalls = [] then
            match req.Gateway with
            | some g =>
              match g.trace with
              | some t => ⟨{ result with ToolCalls := t }, none, true⟩
              | none => ⟨result, none, true⟩
            | none => ⟨result, none, true⟩
          else ⟨result, none, true⟩

theorem Limits.Validate_eq_invalidLimits (l : Limits) (h : l.hasNegativeField) :
    l.Validate = some .invalidLimits := by
  unfold Limits.Validate
  rcases h with h | h | h | h | h | h <;> split_ifs <;> rfl

theorem Limits.Validate_eq_none (l : Limits) (h : ¬l.hasNegativeField) :
    l.Validate = none := by
  unfold Limits.Validate
  unfold Limits.hasNegativeField at h
  push_neg at h
  split_ifs <;> first | rfl | omega

/-- C1: the router applies its checks in exactly this order — nil gateway
(`missing-gateway`), empty code (`missing-code`), negative limits
(`invalid-limits`), backend lookup for the effective profile
(`runtime-unavailable`), unsafe-backend denial (`backend-denied`) — and in
every one of these failure cases the resolved backend's `Execute` is never
invoked. -/
theorem C1_router_checks_in_order (r : DefaultRuntime) (req : ExecuteRequest) :
    (req.Gateway = none →
      (r.Execute false req).error = some .missingGateway ∧
      (r.Execute false req).backendInvoked = false) ∧
    (req.Gateway ≠ none → req.Code = "" →
      (r.Execute false req).error = some .missingCode ∧
      (r.Execute false req).backendInvoked = false) ∧
    (req.Gateway ≠ none → req.Code ≠ "" → req.Limits.hasNegativeField →
      (r.Execute false req).error = some .invalidLimits ∧
      (r.Execute false req).backendInvoked = false) ∧
    (req.Validate = none → r.backends (r.effProfile req) = none →
      (r.Execute false req).error = some (.runtimeUnavailable (r.effProfile req)) ∧
      (r.Execute false req).backendInvoked = false) ∧
    (∀ b, req.Validate = none → r.backends (r.effProfile req) = some b →
      b.Kind = BackendUnsafeHost → r.denyUnsafeProfiles (r.effProfile req) = true →
      (r.Execute false req).error = some (.backendDenied (r.effProfile req)) ∧
      (r.Execute false req).backendInvoked = false) := by
  refine ⟨?_, ?_, ?_, ?_, ?_⟩
  · intro h
    simp [DefaultRuntime.Execute, ExecuteRequest.Validate, h]
  · intro hg hc
    simp [DefaultRuntime.Execute, ExecuteRequest.Validate, hg, hc]
  · intro hg hc hl
    simp [DefaultRuntime.Execute, ExecuteRequest.Validate, hg, hc,
      Limits.Validate_eq_invalidLimits _ hl]
  · intro hv hb
    simp [DefaultRuntime.Execute, hv, hb]
  · intro b hv hb hk hd
    simp [DefaultRuntime.Execute, hv, hb, hk, hd]

/-- C6: on a successful execute, when the backend's result carries an empty
tool-call list and the gateway can report a trace, the router substitutes
the gateway's snapshot; a non-empty backend list, or a backend error, leaves
the result exactly as the backend produced it. -/
theorem C6_trace_harvest (r : DefaultRuntime) (req : ExecuteRequest) (b : Backend)
    (hv : req.Validate = none)
    (hb : r.backends (r.effProfile req) = some b)
    (hnd : ¬(r.denyUnsafeProfiles (r.effProfile req) ∧ b.Kind = BackendUnsafeHost)) :
    ((b.Exec req).2 = none → (b.Exec req).1.ToolCalls = [] →
      ∀ g t, req.Gateway = some g → g.trace = some t →
        (r.Execute false req).error = none ∧
        (r.Execute false req).result.ToolCalls = t) ∧
    ((b.Exec req).2 = none → (b.Exec req).1.ToolCalls ≠ [] →
      (r.Execute false req).error = none ∧
      (r.Execute false req).result = (b.Exec req).1) ∧
    (∀ e, (b.Exec req).2 = some e →
      (r.Execute false req).result = (b.Exec req).1) := by
  cases hbe : b.Exec req with
  | mk res err =>
    cases err with
    | some e =>
      refine ⟨?_, ?_, ?_⟩
      · intro h; simp at h
      · intro h; simp at h
      · intro e' he'
        simp only [hbe] at he' ⊢
        simp [DefaultRuntime.Execute, hv, hb, hnd, hbe]
    | none =>
      refine ⟨?_, ?_, ?_⟩
      · intro _ hempty g t hg ht
        simp only [hbe] at hempty
        simp [DefaultRuntime.Execute, hv, hb, hnd, hbe, hempty, hg, ht]
      · intro _ hne
        simp only [hbe] at hne
        simp [DefaultRuntime.Execute, hv, hb, hnd, hbe, hne]
      · intro e' he'
        simp [hbe] at he'

/-- A sample recorded tool call, used by concrete witnesses. -/
def recW (id : String) : ToolCallRecord := { ToolID := id, BackendKind := "mcp" }

/-- A sample non-unsafe backend whose results carry no tool calls. -/
def bW : Backend where
  Kind := "docker"
  Exec := fun _ => ({ Stdout := "ok" }, none)

/-- A sample unsafe-host backend. -/
def bUW : Backend where
  Kind := BackendUnsafeHost
  Exec := fun _ => ({}, none)

/-- A sample runtime: `dev → bW`, `standard → bUW`, default profile `dev`,
unsafe backend denied for `standard`. -/
def rtW : DefaultRuntime where
  backends := fun p =>
    if p = "dev" then some bW else if p = "standard" then some bUW else none
  denyUnsafeProfiles := fun p => p == "standard"
  defaultProfile := "dev"

theorem C1_witness :
    ((rtW.Execute false { Code := "x" }).error = some .missingGateway ∧
     (rtW.Execute false { Code := "x" }).backendInvoked = false) ∧
    ((rtW.Execute false { Gateway := some {} }).error = some .missingCode ∧
     (rtW.Execute false { Gateway := some {} }).backendInvoked = false) ∧
    ((rtW.Execute false
        { Code := "x", Gateway := some {},
          Limits := { MaxToolCalls := -1 } }).error = some .invalidLimits ∧
     (rtW.Execute false
        { Code := "x", Gateway := some {},
          Limits := { MaxToolCalls := -1 } }).backendInvoked = false) ∧
    ((rtW.Execute false
        { Code := "x", Gateway := some {}, Profile := "hardened" }).error =
          some (.runtimeUnavailable "hardened") ∧
     (rtW.Execute false
        { Code := "x", Gateway := some {}, Profile := "hardened" }).backendInvoked = false) ∧
    ((rtW.Execute false
        { Code := "x", Gateway := some {}, Profile := "standard" }).error =
          some (.backendDenied "standard") ∧
     (rtW.Execute false
        { Code := "x", Gateway := some {}, Profile := "standard" }).backendInvoked = false) :=
  ⟨(C1_router_checks_in_order rtW { Code := "x" }).1 rfl,
   (C1_router_checks_in_order rtW { Gateway := some {} }).2.1 (by simp) rfl,
   (C1_router_checks_in_order rtW
      { Code := "x", Gateway := some {}, Limits := { MaxToolCalls := -1 } }).2.2.1
      (by simp) (by simp) (by decide),
   (C1_router_checks_in_order rtW
      { Code := "x", Gateway := some {}, Profile := "hardened" }).2.2.2.1
      (by decide) rfl,
   (C1_router_checks_in_order rtW
      { Code := "x", Gateway := some {}, Profile := "standard" }).2.2.2.2 bUW
      (by decide) rfl rfl (by decide)⟩

theorem C6_witness :
    (rtW.Execute false
      { Code := "x", Profile := "dev",
        Gateway := some { trace := some [recW "a", recW "b", recW "c"] } }).error = none ∧
    (rtW.Execute false
      { Code := "x", Profile := "dev",
        Gateway := some { trace := some [recW "a", recW "b", recW "c"] } }).result.ToolCalls =
      [recW "a", recW "b", recW "c"] :=
  (C6_trace_harvest rtW
      { Code := "x", Profile := "dev",
        Gateway := some { trace := some [recW "a", recW "b", recW "c"] } } bW
      (by decide) rfl (by decide)).1
    rfl rfl _ _ rfl rfl

end Toolruntime

namespace Direct

open Toolruntime

/-- `toolrun.RunResult` restricted to what the direct gateway reads: the
backend tag of the result. -/
structure RunResult where
  BackendKind : String := ""
deriving DecidableEq, Repr

/-- `toolrun.StepResult` restricted to what the direct gateway reads. -/
structure StepResult where
  ToolID : String := ""
  Err : Option String := none
  BackendKind : String := ""
deriving DecidableEq, Repr

/-- `toolrun.ChainStep` restricted to what the direct gateway reads. -/
structure ChainStep where
  ToolID : String := ""
deriving DecidableEq, Repr

/-- Direct gateway errors (`direct.go`) plus the context error; a runner
error is carried as a message. -/
inductive GwErr where
  | ctxCanceled
  | toolCallLimit
  | chainStepLimit
  | runner (msg : String)
deriving DecidableEq, Repr

/-- The mutable state of a direct `Gateway` (`direct.go`): the two quota
configurations, the tool-call counter, and the record list. -/
structure Gateway where
  maxToolCalls : Int := 0
  maxChainSteps : Int := 0
  callCount : Int := 0
  toolCalls : List ToolCallRecord := []
deriving DecidableEq, Repr

/-- What the runner collaborator's `Run` would return for a call, plus the
measured duration of the call. -/
structure RunOutcome where
  result : RunResult := {}
  err : Option String := none
  duration : Int := 0
deriving DecidableEq, Repr

/-- Return value of the embedded `RunTool`: the next gateway state, the
runner's result and error, and whether the runner was invoked. -/
structure RunToolRet where
  g : Gateway
  result : RunResult
  error : Option GwErr
  runnerInvoked : Bool
deriving DecidableEq, Repr

/-- `Gateway.RunTool` from `direct.go`: context check, tool-call limit
check, counter increment, runner call, and the appended record carrying
`ErrorOp = "run"` exactly when the runner errored. -/
def Gateway.RunTool (g : Gateway) (ctxCanceled : Bool) (id : String)
    (ro : RunOutcome) : RunToolRet :=
  if ctxCanceled then ⟨g, {}, some .ctxCanceled, false⟩
  else if g.maxToolCalls > 0 ∧ g.callCount ≥ g.maxToolCalls then
    ⟨g, {}, some .toolCallLimit, false⟩
  else
    let record : ToolCallRecord :=
      { ToolID := id
        Duration := ro.duration
        ErrorOp := if ro.err ≠ none then "run" else ""
        BackendKind := if ro.result.BackendKind ≠ "" then ro.result.BackendKind else "" }
    ⟨{ g with callCount := g.callCount + 1, toolCalls := g.toolCalls ++ [record] },
      ro.result, ro.err.map GwErr.runner, true⟩

/-- What the runner collaborator's `RunChain` would return, plus the
measured duration of the whole chain call. -/
structure ChainOutcome where
  result : RunResult := {}
  stepResults : List StepResult := []
  err : Option String := none
  duration : Int := 0
deriving DecidableEq, Repr

/-- Return value of the embedded `RunChain`. -/
structure RunChainRet where
  g : Gateway
  result : RunResult
  stepResults : List StepResult
  error : Option GwErr
  runnerInvoked : Bool
deriving DecidableEq, Repr

/-- The executed-step computation inside `RunChain` (`direct.go`): the
number of runner step results, replaced by the reservation when the runner
returned no step results and no error, and clamped to the reservation. -/
def chainExecuted (reserved : Nat) (co : ChainOutcome) : Nat :=
  let executed0 := co.stepResults.length
  let executed1 := if executed0 = 0 ∧ co.err = none then reserved else executed0
  if executed1 > reserved then reserved else executed1

/-- The record list `RunChain` appends: one record per executed step, in
input-step order, stamped with the per-step duration
`total / executed` (Go `int64` division truncates) and `ErrorOp = "chain"`
when the matching step result carries an error. -/
def chainRecordsOf (steps : List ChainStep) (co : ChainOutcome)
    (executed : Nat) : List ToolCallRecord :=
  (steps.take executed).enum.map (fun p =>
    ({ ToolID := p.2.ToolID
       Duration := Int.tdiv co.duration (executed : Int)
       ErrorOp :=
         if p.1 < co.stepResults.length ∧ (co.stepResults.getD p.1 {}).Err ≠ none
         then "chain" else ""
       BackendKind :=
         if p.1 < co.stepResults.length ∧ (co.stepResults.getD p.1 {}).BackendKind ≠ ""
         then (co.stepResults.getD p.1 {}).BackendKind else "" } : ToolCallRecord))

/-- `Gateway.RunChain` from `direct.go`: context check, empty-chain early
return, chain-step-limit check, reservation against the tool-call counter,
runner call, the executed-step computation, the refund with its
clamp at zero, and the appended per-step records. -/
def Gateway.RunChain (g : Gateway) (ctxCanceled : Bool) (steps : List ChainStep)
    (co : ChainOutcome) : RunChainRet :=
  if ctxCanceled then ⟨g, {}, [], some .ctxCanceled, false⟩
  else if steps.length = 0 then ⟨g, {}, [], none, false⟩
  else if g.maxChainSteps > 0 ∧ (steps.length : Int) > g.maxChainSteps then
    ⟨g, {}, [], some .chainStepLimit, false⟩
  else
    let reserved := steps.length
    if g.maxToolCalls > 0 ∧ g.callCount + (reserved : Int) > g.maxToolCalls then
      ⟨g, {}, [], some .toolCallLimit, false⟩
    else
      let g1 : Gateway := { g with callCount := g.callCount + (reserved : Int) }
      let executed := chainExecuted reserved co
      let g2 : Gateway :=
        if executed < reserved then
          let cc := g1.callCount - ((reserved : Int) - (executed : Int))
          { g1 with callCount := if cc < 0 then 0 else cc }
        else g1
      if executed = 0 then ⟨g2, co.result, co.stepResults, co.err.map GwErr.runner, true⟩
      else
        ⟨{ g2 with toolCalls := g2.toolCalls ++ chainRecordsOf steps co executed },
          co.result, co.stepResults, co.err.map GwErr.runner, true⟩

/-- C2: on a non-empty chain, an oversized step list fails with
`chain-step-limit` before the counter is consulted, and a reservation that
would exceed `max_tool_calls` fails with `tool-call-limit`; in both cases
the runner is not called and the gateway state (counter and record list) is
unchanged. -/
theorem C2_chain_limit_checks (g : Gateway) (steps : List ChainStep)
    (co : ChainOutcome) (hne : steps ≠ []) :
    (g.maxChainSteps > 0 → (steps.length : Int) > g.maxChainSteps →
      (g.RunChain false steps co).error = some .chainStepLimit ∧
      (g.RunChain false steps co).runnerInvoked = false ∧
      (g.RunChain false steps co).g = g) ∧
    (¬(g.maxChainSteps > 0 ∧ (steps.length : Int) > g.maxChainSteps) →
      g.maxToolCalls > 0 → g.callCount + (steps.length : Int) > g.maxToolCalls →
      (g.RunChain false steps co).error = some .toolCallLimit ∧
      (g.RunChain false steps co).runnerInvoked = false ∧
      (g.RunChain false steps co).g = g) := by
  have hlen : steps.length ≠ 0 := by simpa using hne
  constructor
  · intro h1 h2
    simp [Gateway.RunChain, hlen, h1, h2]
  · intro hno h1 h2
    simp [Gateway.RunChain, hlen, hno, h1, h2]

theorem C2_witness :
    (((⟨0, 2, 0, []⟩ : Gateway).RunChain false [⟨"s1"⟩, ⟨"s2"⟩, ⟨"s3"⟩] {}).error =
        some .chainStepLimit ∧
      ((⟨0, 2, 0, []⟩ : Gateway).RunChain false [⟨"s1"⟩, ⟨"s2"⟩, ⟨"s3"⟩] {}).runnerInvoked =
        false ∧
      ((⟨0, 2, 0, []⟩ : Gateway).RunChain false [⟨"s1"⟩, ⟨"s2"⟩, ⟨"s3"⟩] {}).g =
        (⟨0, 2, 0, []⟩ : Gateway)) ∧
    (((⟨2, 0, 1, []⟩ : Gateway).RunChain false [⟨"s1"⟩, ⟨"s2"⟩] {}).error =
        some .toolCallLimit ∧
      ((⟨2, 0, 1, []⟩ : Gateway).RunChain false [⟨"s1"⟩, ⟨"s2"⟩] {}).runnerInvoked =
        false ∧
      ((⟨2, 0, 1, []⟩ : Gateway).RunChain false [⟨"s1"⟩, ⟨"s2"⟩] {}).g =
        (⟨2, 0, 1, []⟩ : Gateway)) :=
  ⟨(C2_chain_limit_checks ⟨0, 2, 0, []⟩ [⟨"s1"⟩, ⟨"s2"⟩, ⟨"s3"⟩] {} (by decide)).1
      (by decide) (by decide),
   (C2_chain_limit_checks ⟨2, 0, 1, []⟩ [⟨"s1"⟩, ⟨"s2"⟩] {} (by decide)).2
      (by decide) (by decide) (by decide)⟩

/-- The number of accounted steps in the claim's terms: the minimum of the
number of runner step results and the reservation, except that a runner
returning no step results and no error accounts the whole reservation. -/
def specExecuted (steps : List ChainStep) (co : ChainOutcome) : Nat :=
  if co.stepResults = [] ∧ co.err = none then steps.length
  else min co.stepResults.length steps.length

/-- The records the claim says one chain call appends: the per-step records
for the first `specExecuted` input steps. -/
def chainRecords (steps : List ChainStep) (co : ChainOutcome) : List ToolCallRecord :=
  chainRecordsOf steps co (specExecuted steps co)

theorem chainExecuted_eq_spec (steps : List ChainStep) (co : ChainOutcome) :
    chainExecuted steps.length co = specExecuted steps co := by
  simp only [chainExecuted, specExecuted]
  by_cases hr : co.stepResults.length = 0 ∧ co.err = none
  · have h0 : co.stepResults = [] := List.length_eq_zero.mp hr.1
    simp [h0, hr.2]
  · have h0 : ¬(co.stepResults = [] ∧ co.err = none) := by
      simpa [List.length_eq_zero] using hr
    simp only [if_neg hr, if_neg h0]
    split_ifs <;> omega

theorem chainExecuted_le (reserved : Nat) (co : ChainOutcome) :
    chainExecuted reserved co ≤ reserved := by
  simp only [chainExecuted]
  split_ifs <;> omega

/-- C3: a chain call with an empty step list succeeds and records nothing;
otherwise, past the limit checks, the runner is invoked, the counter ends
at its starting value plus the number of accounted steps (reservation minus
refund, never below zero), and exactly that many records are appended
contiguously in input-step order, stamped with the per-step duration
`total / executed` and `ErrorOp = "chain"` for failed steps. -/
theorem C3_chain_partial_accounting (g : Gateway) (steps : List ChainStep)
    (co : ChainOutcome) (hcc : 0 ≤ g.callCount) :
    (g.RunChain false [] co = ⟨g, {}, [], none, false⟩) ∧
    (steps ≠ [] →
      ¬(g.maxChainSteps > 0 ∧ (steps.length : Int) > g.maxChainSteps) →
      ¬(g.maxToolCalls > 0 ∧ g.callCount + (steps.length : Int) > g.maxToolCalls) →
      (g.RunChain false steps co).runnerInvoked = true ∧
      (g.RunChain false steps co).g.callCount =
        g.callCount + (specExecuted steps co : Int) ∧
      0 ≤ (g.RunChain false steps co).g.callCount ∧
      (g.RunChain false steps co).g.toolCalls = g.toolCalls ++ chainRecords steps co) := by
  constructor
  · simp [Gateway.RunChain]
  · intro hne h1 h2
    have hlen : steps.length ≠ 0 := by simpa using hne
    have hle := chainExecuted_le steps.length co
    have hspec := chainExecuted_eq_spec steps co
    simp only [Gateway.RunChain, Bool.false_eq_true, if_false, hlen, h1, h2]
    rw [hspec] at hle ⊢
    by_cases h0 : specExecuted steps co = 0
    · have hlt : specExecuted steps co < steps.length := by omega
      rw [if_pos h0, if_pos hlt]
      have hncl : ¬(g.callCount + (steps.length : Int) -
          ((steps.length : Int) - (specExecuted steps co : Int)) < 0) := by
        omega
      rw [if_neg hncl]
      refine ⟨rfl, ?_, ?_, ?_⟩
      · simp only [h0]
        push_cast
        omega
      · simp only [h0]
        push_cast
        omega
      · simp [chainRecords, chainRecordsOf, h0]
    · rw [if_neg h0]
      by_cases hlt : specExecuted steps co < steps.length
      · rw [if_pos hlt]
        have hncl : ¬(g.callCount + (steps.length : Int) -
            ((steps.length : Int) - (specExecuted steps co : Int)) < 0) := by
          omega
        rw [if_neg hncl]
        refine ⟨rfl, ?_, ?_, ?_⟩
        · push_cast
          omega
        · push_cast
          omega
        · simp [chainRecords]
      · rw [if_neg hlt]
        have heq : specExecuted steps co = steps.length := by omega
        refine ⟨rfl, ?_, ?_, ?_⟩
        · simp only [heq]
        · simp only [heq]
          omega
        · simp [chainRecords, heq]

/-- A concrete chain outcome for the C3 witness: two step results (the
first failed) out of three requested steps. -/
def coW3 : ChainOutcome where
  result := {}
  stepResults := [{ ToolID := "s1", Err := some "boom" }, { ToolID := "s2" }]
  err := none
  duration := 9

theorem C3_witness :
    ((⟨10, 0, 0, []⟩ : Gateway).RunChain false [⟨"s1"⟩, ⟨"s2"⟩, ⟨"s3"⟩] coW3).runnerInvoked =
      true ∧
    ((⟨10, 0, 0, []⟩ : Gateway).RunChain false [⟨"s1"⟩, ⟨"s2"⟩, ⟨"s3"⟩] coW3).g.callCount =
      (0 : Int) + (specExecuted [⟨"s1"⟩, ⟨"s2"⟩, ⟨"s3"⟩] coW3 : Int) ∧
    0 ≤ ((⟨10, 0, 0, []⟩ : Gateway).RunChain false [⟨"s1"⟩, ⟨"s2"⟩, ⟨"s3"⟩] coW3).g.callCount ∧
    ((⟨10, 0, 0, []⟩ : Gateway).RunChain false [⟨"s1"⟩, ⟨"s2"⟩, ⟨"s3"⟩] coW3).g.toolCalls =
      [] ++ chainRecords [⟨"s1"⟩, ⟨"s2"⟩, ⟨"s3"⟩] coW3 :=
  (C3_chain_partial_accounting ⟨10, 0, 0, []⟩ [⟨"s1"⟩, ⟨"s2"⟩, ⟨"s3"⟩] coW3 (by decide)).2
    (by decide) (by decide) (by decide)

/-- One `RunTool` invocation: the tool id plus the runner's outcome. -/
structure Invocation where
  id : String := ""
  ro : RunOutcome := {}
deriving DecidableEq, Repr

/-- The record `RunTool` appends for an invocation that passes the limit
check. -/
def recordOf (inv : Invocation) : ToolCallRecord :=
  { ToolID := inv.id
    Duration := inv.ro.duration
    ErrorOp := if inv.ro.err ≠ none then "run" else ""
    BackendKind := if inv.ro.result.BackendKind ≠ "" then inv.ro.result.BackendKind else "" }

/-- Folding a sequence of `RunTool` invocations through the gateway. -/
def Gateway.runToolSeq (g : Gateway) (invs : List Invocation) : Gateway :=
  invs.foldl (fun s inv => (s.RunTool false inv.id inv.ro).g) g

theorem runToolSeq_state (invs : List Invocation) (n : Nat) (hn : 0 < n) :
    ∀ (g : Gateway) (c : Nat), g.maxToolCalls = (n : Int) → g.callCount = (c : Int) →
    c ≤ n →
    (g.runToolSeq invs).callCount = ((min (c + invs.length) n : Nat) : Int) ∧
    (g.runToolSeq invs).maxToolCalls = (n : Int) ∧
    (g.runToolSeq invs).toolCalls = g.toolCalls ++ (invs.take (n - c)).map recordOf := by
  induction invs with
  | nil =>
    intro g c hmax hcc hle
    refine ⟨?_, ?_, ?_⟩
    · simp only [Gateway.runToolSeq, List.foldl_nil, List.length_nil, Nat.add_zero, hcc]
      congr 1
      omega
    · simp [Gateway.runToolSeq, hmax]
    · simp [Gateway.runToolSeq]
  | cons inv rest ih =>
    intro g c hmax hcc hle
    have hgoal1 : g.runToolSeq (inv :: rest) =
        ((g.RunTool false inv.id inv.ro).g).runToolSeq rest := by
      simp [Gateway.runToolSeq]
    by_cases hfull : c < n
    · have hcond : ¬(g.maxToolCalls > 0 ∧ g.callCount ≥ g.maxToolCalls) := by
        rw [hmax, hcc]
        push_neg
        intro
        omega
      have hstep : (g.RunTool false inv.id inv.ro).g =
          { g with callCount := g.callCount + 1,
                   toolCalls := g.toolCalls ++ [recordOf inv] } := by
        simp [Gateway.RunTool, hcond, recordOf]
      obtain ⟨ha, hb, hc2⟩ :=
        ih ((g.RunTool false inv.id inv.ro).g) (c + 1)
          (by rw [hstep]; simpa using hmax)
          (by rw [hstep]; simp [hcc])
          (by omega)
      rw [hgoal1]
      refine ⟨?_, hb, ?_⟩
      · rw [ha]
        congr 1
        simp only [List.length_cons]
        omega
      · rw [hc2, hstep]
        simp only [List.length_cons]
        have hnc : n - c = (n - (c + 1)) + 1 := by omega
        rw [hnc, List.take_succ_cons, List.map_cons, List.append_assoc]
        rfl
    · have hcond : g.maxToolCalls > 0 ∧ g.callCount ≥ g.maxToolCalls := by
        rw [hmax, hcc]
        refine ⟨by exact_mod_cast hn, by omega⟩
      have hstep : (g.RunTool false inv.id inv.ro).g = g := by
        simp [Gateway.RunTool, hcond]
      obtain ⟨ha, hb, hc2⟩ := ih g c hmax hcc hle
      rw [hgoal1, hstep]
      refine ⟨?_, hb, ?_⟩
      · rw [ha]
        congr 1
        simp only [List.length_cons]
        omega
      · rw [hc2]
        have h0 : n - c = 0 := by omega
        simp [h0]

/-- C4: with `max_tool_calls = n > 0`, every `RunTool` call that passes the
limit check invokes the runner and appends exactly one record (with
`ErrorOp = "run"` exactly when the runner errored); from a fresh gateway the
trace after any invocation sequence is the records of the first `n`
invocations in invocation order, the counter is `min |invs| n` and never
exceeds `n`, and once `n` calls have been made a further call fails with
`tool-call-limit` without invoking the runner or changing the state. -/
theorem C4_runtool_quota (n : Nat) (hn : 0 < n) (invs : List Invocation) :
    (∀ (g : Gateway) (inv : Invocation), g.maxToolCalls = (n : Int) →
      g.callCount < (n : Int) →
      (g.RunTool false inv.id inv.ro).runnerInvoked = true ∧
      (g.RunTool false inv.id inv.ro).g.toolCalls = g.toolCalls ++ [recordOf inv] ∧
      ((recordOf inv).ErrorOp = "run" ↔ inv.ro.err ≠ none)) ∧
    (({ maxToolCalls := (n : Int) } : Gateway).runToolSeq invs).callCount =
      ((min invs.length n : Nat) : Int) ∧
    (({ maxToolCalls := (n : Int) } : Gateway).runToolSeq invs).callCount ≤ (n : Int) ∧
    (({ maxToolCalls := (n : Int) } : Gateway).runToolSeq invs).toolCalls =
      (invs.take n).map recordOf ∧
    (n ≤ invs.length → ∀ inv : Invocation,
      ((({ maxToolCalls := (n : Int) } : Gateway).runToolSeq invs).RunTool false
          inv.id inv.ro).error = some .toolCallLimit ∧
      ((({ maxToolCalls := (n : Int) } : Gateway).runToolSeq invs).RunTool false
          inv.id inv.ro).runnerInvoked = false ∧
      ((({ maxToolCalls := (n : Int) } : Gateway).runToolSeq invs).RunTool false
          inv.id inv.ro).g = ({ maxToolCalls := (n : Int) } : Gateway).runToolSeq invs) := by
  obtain ⟨ha, hb, hc2⟩ :=
    runToolSeq_state invs n hn ({ maxToolCalls := (n : Int) } : Gateway) 0 rfl rfl
      (by omega)
  refine ⟨?_, ?_, ?_, ?_, ?_⟩
  · intro g inv hmax hlt
    have hcond : ¬(g.maxToolCalls > 0 ∧ g.callCount ≥ g.maxToolCalls) := by
      rw [hmax]
      push_neg
      intro
      omega
    refine ⟨?_, ?_, ?_⟩
    · simp [Gateway.RunTool, hcond]
    · simp [Gateway.RunTool, hcond, recordOf]
    · simp [recordOf]
  · simpa using ha
  · rw [ha]
    have : min (0 + invs.length) n ≤ n := by omega
    exact_mod_cast this
  · simpa using hc2
  · intro hge inv
    have hfull : (({ maxToolCalls := (n : Int) } : Gateway).runToolSeq invs).maxToolCalls > 0 ∧
        (({ maxToolCalls := (n : Int) } : Gateway).runToolSeq invs).callCount ≥
          (({ maxToolCalls := (n : Int) } : Gateway).runToolSeq invs).maxToolCalls := by
      rw [ha, hb]
      refine ⟨by exact_mod_cast hn, ?_⟩
      have : min (0 + invs.length) n = n := by omega
      rw [this]
    refine ⟨?_, ?_, ?_⟩ <;> simp [Gateway.RunTool, hfull]

/-- Concrete invocations for the C4 witness: two calls, the second erroring. -/
def invsW4 : List Invocation :=
  [{ id := "t1" }, { id := "t2", ro := { err := some "boom" } }]

theorem C4_witness :
    ((({ maxToolCalls := (2 : Nat) } : Gateway).runToolSeq invsW4).callCount =
      ((min invsW4.length 2 : Nat) : Int) ∧
     (({ maxToolCalls := (2 : Nat) } : Gateway).runToolSeq invsW4).toolCalls =
      (invsW4.take 2).map recordOf) ∧
    ((((({ maxToolCalls := (2 : Nat) } : Gateway).runToolSeq invsW4).RunTool false
        "t3" {}).error = some .toolCallLimit) ∧
     (((({ maxToolCalls := (2 : Nat) } : Gateway).runToolSeq invsW4).RunTool false
        "t3" {}).runnerInvoked = false)) := by
  obtain ⟨_, h2, _, h4, h5⟩ := C4_runtool_quota 2 (by decide) invsW4
  obtain ⟨h5a, h5b, _⟩ := h5 (by decide) { id := "t3" }
  exact ⟨⟨h2, h4⟩, h5a, h5b⟩


end Direct


namespace Docker

/-- Validation errors of the container-spec machinery: `ErrSecurityViolation`
from `docker.go`, and the untagged invalid-spec errors (plain `errors.New`
and `fmt.Errorf` values) produced by every other validation check, modelled
as `invalidSpec` carrying the message. -/
inductive SpecErr where
  | securityViolation
  | invalidSpec (msg : String)
deriving DecidableEq, Repr

/-- `Mount` from `spec.go`; the mount type is the string tag
`"bind" | "volume" | "tmpfs"` (the Go field is named `Type`, which Lean
reserves, hence `MType`). -/
structure Mount where
  MType : String := ""
  Source : String := ""
  Target : String := ""
  ReadOnly : Bool := false
deriving DecidableEq, Repr

/-- `ResourceSpec` from `spec.go`. -/
structure ResourceSpec where
  MemoryBytes : Int := 0
  CPUQuota : Int := 0
  PidsLimit : Int := 0
  DiskBytes : Int := 0
deriving DecidableEq, Repr

/-- `SecuritySpec` from `spec.go`. -/
structure SecuritySpec where
  User : String := ""
  ReadOnlyRootfs : Bool := false
  NetworkMode : String := ""
  SeccompProfile : String := ""
  Privileged : Bool := false
deriving DecidableEq, Repr

/-- `ContainerSpec` from `spec.go`; labels are an association list. -/
structure ContainerSpec where
  Image : String := ""
  Command : List String := []
  WorkingDir : String := ""
  Env : List String := []
  Mounts : List Mount := []
  Resources : ResourceSpec := {}
  Security : SecuritySpec := {}
  Timeout : Int := 0
  Labels : List (String × String) := []
deriving DecidableEq, Repr

/-- `SecuritySpec.Validate` from `validate.go`: privileged containers and
host networking are security violations. -/
def SecuritySpec.Validate (s : SecuritySpec) : Option SpecErr :=
  if s.Privileged then some .securityViolation
  else if s.NetworkMode = "host" then some .securityViolation
  else none

/-- `ResourceSpec.Validate` from `validate.go`: all four fields must be
non-negative. -/
def ResourceSpec.Validate (r : ResourceSpec) : Option SpecErr :=
  if r.MemoryBytes < 0 then some (.invalidSpec "memory cannot be negative")
  else if r.CPUQuota < 0 then some (.invalidSpec "cpu quota cannot be negative")
  else if r.PidsLimit < 0 then some (.invalidSpec "pids limit cannot be negative")
  else if r.DiskBytes < 0 then some (.invalidSpec "disk limit cannot be negative")
  else none

/-- `Mount.Validate` from `validate.go`: a target is always required; bind
and volume mounts also require a source; tmpfs requires none; an empty or
unknown type is rejected. -/
def Mount.Validate (m : Mount) : Option SpecErr :=
  if m.Target = "" then some (.invalidSpec "target is required")
  else if m.MType = "bind" then
    if m.Source = "" then some (.invalidSpec "source is required for bind mounts") else none
  else if m.MType = "volume" then
    if m.Source = "" then some (.invalidSpec "source is required for volume mounts") else none
  else if m.MType = "tmpfs" then none
  else if m.MType = "" then some (.invalidSpec "mount type is required")
  else some (.invalidSpec "unknown mount type")

/-- The mount loop inside `ContainerSpec.Validate`: the first failing mount
aborts validation. -/
def validateMounts : List Mount → Option SpecErr
  | [] => none
  | m :: rest =>
    match m.Validate with
    | some e => some e
    | none => validateMounts rest

/-- `ContainerSpec.Validate` from `validate.go`: image, then security, then
resources, then each mount in order. -/
def ContainerSpec.Validate (s : ContainerSpec) : Option SpecErr :=
  if s.Image = "" then some (.invalidSpec "image is required")
  else
    match s.Security.Validate with
    | some e => some e
    | none =>
      match s.Resources.Validate with
      | some e => some e
      | none => validateMounts s.Mounts

/-- `SpecBuilder` from `builder.go`: a wrapped spec under construction. -/
structure SpecBuilder where
  spec : ContainerSpec
deriving DecidableEq, Repr

/-- `NewSpecBuilder` from `builder.go`. -/
def NewSpecBuilder (image : String) : SpecBuilder := ⟨{ Image := image }⟩

/-- `SpecBuilder.WithSecurity` from `builder.go`. -/
def SpecBuilder.WithSecurity (b : SpecBuilder) (s : SecuritySpec) : SpecBuilder :=
  ⟨{ b.spec with Security := s }⟩

/-- `SpecBuilder.WithNetworkMode` from `builder.go`. -/
def SpecBuilder.WithNetworkMode (b : SpecBuilder) (mode : String) : SpecBuilder :=
  ⟨{ b.spec with Security := { b.spec.Security with NetworkMode := mode } }⟩

/-- `SpecBuilder.WithMount` from `builder.go`. -/
def SpecBuilder.WithMount (b : SpecBuilder) (m : Mount) : SpecBuilder :=
  ⟨{ b.spec with Mounts := b.spec.Mounts ++ [m] }⟩

/-- `SpecBuilder.WithResources` from `builder.go`. -/
def SpecBuilder.WithResources (b : SpecBuilder) (r : ResourceSpec) : SpecBuilder :=
  ⟨{ b.spec with Resources := r }⟩

/-- `SpecBuilder.Build` from `builder.go`: validate, then return the spec. -/
def SpecBuilder.Build (b : SpecBuilder) : Except SpecErr ContainerSpec :=
  match b.spec.Validate with
  | some e => .error e
  | none => .ok b.spec


/-- The invalid-spec error class: every builder validation failure that is
not a security violation. -/
def SpecErr.isInvalid : SpecErr → Bool
  | .securityViolation => false
  | .invalidSpec _ => true

/-- A mount violating the construction invariants the claim lists. -/
def Mount.bad (m : Mount) : Prop :=
  m.Target = "" ∨ ((m.MType = "bind" ∨ m.MType = "volume") ∧ m.Source = "")

theorem mountValidate_invalid (m : Mount) (e : SpecErr) (h : m.Validate = some e) :
    e.isInvalid = true := by
  unfold Mount.Validate at h
  split_ifs at h <;> simp only [Option.some.injEq] at h <;> subst h <;> rfl

theorem mountValidate_ne_none (m : Mount) (h : m.bad) : m.Validate ≠ none := by
  unfold Mount.Validate
  rcases h with h | ⟨h1 | h1, h2⟩ <;> split_ifs <;> simp_all

theorem mountValidate_none (m : Mount) (h : m.Validate = none) :
    m.Target ≠ "" ∧ ((m.MType = "bind" ∨ m.MType = "volume") → m.Source ≠ "") := by
  unfold Mount.Validate at h
  split_ifs at h <;> simp_all

theorem resourceValidate_invalid (r : ResourceSpec) (e : SpecErr)
    (h : r.Validate = some e) : e.isInvalid = true := by
  unfold ResourceSpec.Validate at h
  split_ifs at h <;> simp only [Option.some.injEq] at h <;> subst h <;> rfl

theorem resourceValidate_none (r : ResourceSpec) (h : r.Validate = none) :
    0 ≤ r.MemoryBytes ∧ 0 ≤ r.CPUQuota ∧ 0 ≤ r.PidsLimit ∧ 0 ≤ r.DiskBytes := by
  unfold ResourceSpec.Validate at h
  split_ifs at h
  omega

theorem resourceValidate_ne_none (r : ResourceSpec)
    (h : r.MemoryBytes < 0 ∨ r.CPUQuota < 0 ∨ r.PidsLimit < 0 ∨ r.DiskBytes < 0) :
    r.Validate ≠ none := by
  intro hnone
  have := resourceValidate_none r hnone
  omega

theorem validateMounts_invalid (ms : List Mount) (e : SpecErr)
    (h : validateMounts ms = some e) : e.isInvalid = true := by
  induction ms with
  | nil => simp [validateMounts] at h
  | cons m rest ih =>
    unfold validateMounts at h
    cases hm : m.Validate with
    | some e2 =>
      rw [hm] at h
      simp at h
      subst h
      exact mountValidate_invalid m e2 hm
    | none =>
      rw [hm] at h
      simp at h
      exact ih h

theorem validateMounts_none (ms : List Mount) (h : validateMounts ms = none) :
    ∀ m ∈ ms, m.Validate = none := by
  induction ms with
  | nil => simp
  | cons m rest ih =>
    unfold validateMounts at h
    cases hm : m.Validate with
    | some e2 => rw [hm] at h; simp at h
    | none =>
      rw [hm] at h
      intro x hx
      rcases List.mem_cons.mp hx with hx | hx
      · rw [hx]; exact hm
      · exact ih h x hx

theorem validateMounts_ne_none (ms : List Mount) (h : ∃ m ∈ ms, m.bad) :
    validateMounts ms ≠ none := by
  intro hnone
  obtain ⟨m, hmem, hbad⟩ := h
  exact mountValidate_ne_none m hbad (validateMounts_none ms hnone m hmem)

/-- `Build` fails and its error is of the invalid-spec class. -/
def buildInvalid (b : SpecBuilder) : Bool :=
  match b.Build with
  | .error (.invalidSpec _) => true
  | _ => false

theorem buildInvalid_of (b : SpecBuilder) (e : SpecErr) (h : b.Build = .error e)
    (hi : e.isInvalid = true) : buildInvalid b = true := by
  unfold buildInvalid
  rw [h]
  cases e
  · simp [SpecErr.isInvalid] at hi
  · rfl

/-- C5 (amended): `Build` validates the image first, so an empty image
fails with the invalid-spec class regardless of the security fields; with a
non-empty image, a privileged spec or host networking fails with
`security-violation`; past those checks, a negative resource field or an
invalid mount fails with the invalid-spec class; and every spec `Build`
returns satisfies all the construction invariants. -/
theorem C5_build_validation (b : SpecBuilder) :
    (b.spec.Image = "" → b.Build = .error (.invalidSpec "image is required")) ∧
    (b.spec.Image ≠ "" →
      (b.spec.Security.Privileged = true ∨ b.spec.Security.NetworkMode = "host") →
      b.Build = .error .securityViolation) ∧
    (b.spec.Image ≠ "" → b.spec.Security.Privileged = false →
      b.spec.Security.NetworkMode ≠ "host" →
      (b.spec.Resources.MemoryBytes < 0 ∨ b.spec.Resources.CPUQuota < 0 ∨
       b.spec.Resources.PidsLimit < 0 ∨ b.spec.Resources.DiskBytes < 0 ∨
       (∃ m ∈ b.spec.Mounts, m.bad)) →
      buildInvalid b = true) ∧
    (∀ spec, b.Build = .ok spec →
      spec = b.spec ∧ spec.Image ≠ "" ∧ spec.Security.Privileged = false ∧
      spec.Security.NetworkMode ≠ "host" ∧
      0 ≤ spec.Resources.MemoryBytes ∧ 0 ≤ spec.Resources.CPUQuota ∧
      0 ≤ spec.Resources.PidsLimit ∧ 0 ≤ spec.Resources.DiskBytes ∧
      ∀ m ∈ spec.Mounts, m.Target ≠ "" ∧
        ((m.MType = "bind" ∨ m.MType = "volume") → m.Source ≠ "")) := by
  refine ⟨?_, ?_, ?_, ?_⟩
  · intro h
    simp [SpecBuilder.Build, ContainerSpec.Validate, h]
  · intro himg hsec
    have hs : b.spec.Security.Validate = some .securityViolation := by
      unfold SecuritySpec.Validate
      rcases hsec with h | h <;> split_ifs <;> simp_all
    simp [SpecBuilder.Build, ContainerSpec.Validate, himg, hs]
  · intro himg hpriv hnm hbad
    have hs : b.spec.Security.Validate = none := by
      unfold SecuritySpec.Validate
      split_ifs <;> simp_all
    have hmain : ∃ e, b.spec.Validate = some e ∧ e.isInvalid = true := by
      unfold ContainerSpec.Validate
      rw [if_neg himg, hs]
      cases hr : b.spec.Resources.Validate with
      | some e => exact ⟨e, rfl, resourceValidate_invalid _ _ hr⟩
      | none =>
        have hres := resourceValidate_none _ hr
        have hm : ∃ m ∈ b.spec.Mounts, m.bad := by
          rcases hbad with h | h | h | h | h
          · exact absurd h (by omega)
          · exact absurd h (by omega)
          · exact absurd h (by omega)
          · exact absurd h (by omega)
          · exact h
        cases hv : validateMounts b.spec.Mounts with
        | some e => exact ⟨e, rfl, validateMounts_invalid _ _ hv⟩
        | none => exact absurd hv (validateMounts_ne_none _ hm)
    obtain ⟨e, hva, hei⟩ := hmain
    refine buildInvalid_of b e ?_ hei
    unfold SpecBuilder.Build
    rw [hva]
  · intro spec hok
    unfold SpecBuilder.Build at hok
    cases hv : b.spec.Validate with
    | some e => rw [hv] at hok; simp at hok
    | none =>
      rw [hv] at hok
      simp at hok
      subst hok
      unfold ContainerSpec.Validate at hv
      by_cases himg : b.spec.Image = ""
      · rw [if_pos himg] at hv; simp at hv
      · rw [if_neg himg] at hv
        cases hsv : b.spec.Security.Validate with
        | some e => rw [hsv] at hv; simp at hv
        | none =>
          rw [hsv] at hv
          cases hrv : b.spec.Resources.Validate with
          | some e => rw [hrv] at hv; simp at hv
          | none =>
            rw [hrv] at hv
            have hsec : b.spec.Security.Privileged = false ∧
                b.spec.Security.NetworkMode ≠ "host" := by
              unfold SecuritySpec.Validate at hsv
              split_ifs at hsv
              simp_all
            have hres := resourceValidate_none _ hrv
            have hmts := validateMounts_none _ hv
            refine ⟨rfl, himg, hsec.1, hsec.2, hres.1, hres.2.1, hres.2.2.1,
              hres.2.2.2, ?_⟩
            intro m hm
            exact mountValidate_none m (hmts m hm)


instance (m : Mount) : Decidable m.bad := by
  unfold Mount.bad; infer_instance

/-- C5 counterexample: a spec violating both the image invariant and the
privilege invariant fails with the invalid-spec error for the image, not
with `security-violation` — the image check precedes the security check, so
the claim "Build fails with security-violation when privileged = true" does
not hold for this input. -/
theorem C5_counterexample :
    ((NewSpecBuilder "").WithSecurity { Privileged := true }).Build =
      .error (.invalidSpec "image is required") ∧
    SpecErr.invalidSpec "image is required" ≠ .securityViolation := by
  constructor
  · rfl
  · decide

theorem C5_witness :
    ((((NewSpecBuilder "alpine:latest").WithNetworkMode "host").Build =
      .error .securityViolation) ∧
     (buildInvalid ((NewSpecBuilder "alpine").WithResources { MemoryBytes := -1 }) =
      true)) ∧
    ((NewSpecBuilder "alpine").WithMount
        { MType := "tmpfs", Target := "/scratch" }).spec.Image ≠ "" :=
  ⟨⟨(C5_build_validation
        ((NewSpecBuilder "alpine:latest").WithNetworkMode "host")).2.1
      (by decide) (Or.inr (by decide)),
    (C5_build_validation
        ((NewSpecBuilder "alpine").WithResources { MemoryBytes := -1 })).2.2.1
      (by decide) (by decide) (by decide) (Or.inl (by decide))⟩,
   ((C5_build_validation
        ((NewSpecBuilder "alpine").WithMount
          { MType := "tmpfs", Target := "/scratch" })).2.2.2 _ rfl).2.1⟩


end Docker

namespace Docker

/-- `ContainerOptions` from `docker.go`. -/
structure ContainerOptions where
  NetworkDisabled : Bool := false
  ReadOnlyRootfs : Bool := false
  MemoryLimit : Int := 0
  CPUQuota : Int := 0
  PidsLimit : Int := 0
  SeccompProfile : String := ""
  User : String := ""
deriving DecidableEq, Repr

/-- The profile resolution at the head of `Backend.Execute` (`docker.go`):
an empty request profile becomes `standard`; any other value is used as
given. -/
def execProfile (reqProfile : String) : String :=
  if reqProfile = "" then "standard" else reqProfile

/-- `Backend.containerOptions` from `docker.go`: the profile-derived
security posture (the `switch` has no default case, so an unrecognized
profile keeps the zero-value posture), then the request's resource caps,
with CPU millis scaled to microseconds. -/
def containerOptions (seccompPath : String) (profile : String)
    (limits : Toolruntime.Limits) : ContainerOptions :=
  let opts : ContainerOptions := { User := "nobody:nogroup" }
  let opts :=
    if profile = "dev" then
      { opts with NetworkDisabled := false, ReadOnlyRootfs := false }
    else if profile = "standard" then
      { opts with NetworkDisabled := true, ReadOnlyRootfs := true }
    else if profile = "hardened" then
      let o := { opts with NetworkDisabled := true, ReadOnlyRootfs := true }
      if seccompPath ≠ "" then { o with SeccompProfile := seccompPath } else o
    else opts
  let opts :=
    if limits.MemoryBytes > 0 then { opts with MemoryLimit := limits.MemoryBytes } else opts
  let opts :=
    if limits.CPUQuotaMillis > 0 then
      { opts with CPUQuota := limits.CPUQuotaMillis * 1000 }
    else opts
  if limits.PidsMax > 0 then { opts with PidsLimit := limits.PidsMax } else opts

/-- `Backend.networkMode` from `docker.go`. -/
def networkMode (opts : ContainerOptions) : String :=
  if opts.NetworkDisabled then "none" else "bridge"

/-- C10 counterexample: a request naming the unrecognized profile `custom`
receives the network-enabled, writable-rootfs posture — the same
network/rootfs posture as Dev — although it does not name the Dev
profile, because the profile switch has no default case. -/
theorem C10_counterexample :
    (containerOptions "" (execProfile "custom") {}).NetworkDisabled = false ∧
    (containerOptions "" (execProfile "custom") {}).ReadOnlyRootfs = false ∧
    ("custom" : String) ≠ "dev" ∧ ("custom" : String) ≠ "" := by
  decide

/-- C10 (amended): an empty request profile resolves to `standard` and gets
the Standard posture (network disabled, read-only rootfs, non-root user),
never the Dev posture or any router default; the Dev posture (network
enabled, writable rootfs) is applied exactly when the effective profile is
neither `standard` nor `hardened` — for the `dev` profile and for any other
unrecognized non-empty profile; the user is always non-root. -/
theorem C10_profile_posture (sp p : String) (l : Toolruntime.Limits) :
    (p = "" →
      execProfile p = "standard" ∧
      (containerOptions sp (execProfile p) l).NetworkDisabled = true ∧
      (containerOptions sp (execProfile p) l).ReadOnlyRootfs = true) ∧
    ((containerOptions sp (execProfile p) l).NetworkDisabled = false ∧
      (containerOptions sp (execProfile p) l).ReadOnlyRootfs = false ↔
      execProfile p ≠ "standard" ∧ execProfile p ≠ "hardened") ∧
    (containerOptions sp (execProfile p) l).User = "nobody:nogroup" := by
  unfold execProfile containerOptions
  split_ifs <;> simp_all

theorem C10_witness :
    (execProfile "" = "standard" ∧
     (containerOptions "" (execProfile "") {}).NetworkDisabled = true ∧
     (containerOptions "" (execProfile "") {}).ReadOnlyRootfs = true) ∧
    ((containerOptions "" (execProfile "dev") {}).NetworkDisabled = false ∧
     (containerOptions "" (execProfile "dev") {}).ReadOnlyRootfs = false) ∧
    (containerOptions "" (execProfile "") {}).User = "nobody:nogroup" :=
  ⟨(C10_profile_posture "" "" {}).1 rfl,
   ((C10_profile_posture "" "dev" {}).2.1).mpr (by decide),
   (C10_profile_posture "" "" {}).2.2⟩

end Docker

namespace Engine

/-- The toolruntime error kinds as the adapter matches them with
`errors.Is` (the sentinels of `errors.go`); wrapping preserves the
innermost kind, so an error is modelled by its kind and message. -/
inductive TRKind where
  | timeout
  | resourceLimit
  | sandboxViolation
  | runtimeUnavailable
  | backendDenied
  | missingGateway
  | missingCode
  | invalidLimits
  | other (name : String)
deriving DecidableEq, Repr

/-- A toolruntime-side error: its innermost sentinel kind plus message. -/
structure TRErr where
  kind : TRKind
  msg : String := ""
deriving DecidableEq, Repr

/-- What `mapError` can return: a `toolcode.ErrLimitExceeded` wrap, a
`toolcode.ErrCodeExecution` wrap, or the original error unchanged. -/
inductive TCErr where
  | limitExceeded (cause : TRErr)
  | codeExecution (cause : TRErr)
  | passthrough (e : TRErr)
deriving DecidableEq, Repr

/-- `mapError` from `adapter.go`: nil stays nil; `timeout` and
`resource-limit` collapse to `ErrLimitExceeded`; `sandbox-violation`
collapses to `ErrCodeExecution`; everything else is returned as-is. -/
def mapError : Option TRErr → Option TCErr
  | none => none
  | some e =>
    if e.kind = .timeout then some (.limitExceeded e)
    else if e.kind = .resourceLimit then some (.limitExceeded e)
    else if e.kind = .sandboxViolation then some (.codeExecution e)
    else some (.passthrough e)

/-- C7: the adapter translates runtime errors to the orchestrator taxonomy:
`timeout` and `resource-limit` surface wrapped in `limit-exceeded`;
`sandbox-violation` surfaces wrapped in `execution-failed`
(`ErrCodeExecution`); every other error passes through unchanged; and a nil
error maps to nil. -/
theorem C7_adapter_error_translation (oe : Option TRErr) :
    (oe = none → mapError oe = none) ∧
    (∀ e, oe = some e → (e.kind = .timeout ∨ e.kind = .resourceLimit) →
      mapError oe = some (.limitExceeded e)) ∧
    (∀ e, oe = some e → e.kind = .sandboxViolation →
      mapError oe = some (.codeExecution e)) ∧
    (∀ e, oe = some e → e.kind ≠ .timeout → e.kind ≠ .resourceLimit →
      e.kind ≠ .sandboxViolation → mapError oe = some (.passthrough e)) := by
  refine ⟨?_, ?_, ?_, ?_⟩
  · intro h
    rw [h]
    rfl
  · intro e he hk
    subst he
    rcases hk with hk | hk <;> simp [mapError, hk]
  · intro e he hk
    subst he
    simp [mapError, hk]
  · intro e he h1 h2 h3
    subst he
    simp [mapError, h1, h2, h3]

theorem C7_witness :
    mapError none = none ∧
    mapError (some { kind := .timeout }) =
      some (.limitExceeded { kind := .timeout }) ∧
    mapError (some { kind := .resourceLimit }) =
      some (.limitExceeded { kind := .resourceLimit }) ∧
    mapError (some { kind := .sandboxViolation }) =
      some (.codeExecution { kind := .sandboxViolation }) ∧
    mapError (some { kind := .backendDenied }) =
      some (.passthrough { kind := .backendDenied }) :=
  ⟨(C7_adapter_error_translation none).1 rfl,
   (C7_adapter_error_translation (some { kind := .timeout })).2.1 _ rfl (Or.inl rfl),
   (C7_adapter_error_translation (some { kind := .resourceLimit })).2.1 _ rfl (Or.inr rfl),
   (C7_adapter_error_translation (some { kind := .sandboxViolation })).2.2.1 _ rfl rfl,
   (C7_adapter_error_translation (some { kind := .backendDenied })).2.2.2 _ rfl
     (by decide) (by decide) (by decide)⟩

end Engine

namespace Proxy

/-- Proxy gateway errors (`proxy.go`): the closed-connection and protocol
sentinels the verified claims observe. -/
inductive PErr where
  | connectionClosed
  | protocol (msg : String)
  | other (msg : String)
deriving DecidableEq, Repr

/-- Proxy gateway state as the claims observe it: the `closed` flag, how
many times the underlying connection's `Close` has run, and the pending
map from request id to whether its single-slot channel already holds a
message. -/
structure GatewayState where
  closed : Bool := false
  connCloseCount : Nat := 0
  pending : List (String × Bool) := []
deriving DecidableEq, Repr

/-- `Gateway.Close` from `proxy.go`: under the close mutex, a repeat close
returns nil without touching the connection; the first close sets the flag
and closes the connection once, returning the connection's result. -/
def GatewayState.Close (s : GatewayState) (connCloseErr : Option PErr) :
    GatewayState × Option PErr :=
  if s.closed then (s, none)
  else ({ s with closed := true, connCloseCount := s.connCloseCount + 1 }, connCloseErr)

/-- `Gateway.SearchTools` from `proxy.go`, as far as the claims observe it:
the leading closed check; the rest of the body (encode, send, await,
decode) is abstracted as its outcome `rest`. -/
def GatewayState.SearchTools (s : GatewayState) (rest : Except PErr α) :
    Except PErr α :=
  if s.closed then .error .connectionClosed else rest

/-- `Gateway.ListNamespaces` from `proxy.go`: leading closed check. -/
def GatewayState.ListNamespaces (s : GatewayState) (rest : Except PErr α) :
    Except PErr α :=
  if s.closed then .error .connectionClosed else rest

/-- `Gateway.DescribeTool` from `proxy.go`: leading closed check. -/
def GatewayState.DescribeTool (s : GatewayState) (rest : Except PErr α) :
    Except PErr α :=
  if s.closed then .error .connectionClosed else rest

/-- `Gateway.ListToolExamples` from `proxy.go`: leading closed check. -/
def GatewayState.ListToolExamples (s : GatewayState) (rest : Except PErr α) :
    Except PErr α :=
  if s.closed then .error .connectionClosed else rest

/-- `Gateway.RunTool` from `proxy.go`: leading closed check. -/
def GatewayState.RunTool (s : GatewayState) (rest : Except PErr α) :
    Except PErr α :=
  if s.closed then .error .connectionClosed else rest

/-- `Gateway.RunChain` from `proxy.go`: closed check, then the empty-steps
early success. -/
def GatewayState.RunChain (s : GatewayState) (steps : List String)
    (rest : Except PErr (List String)) : Except PErr (List String) :=
  if s.closed then .error .connectionClosed
  else if steps.length = 0 then .ok []
  else rest

/-- `Gateway.DeliverResponse` from `proxy.go`: no pending slot for the id is
a protocol error; a full single-slot channel is a protocol error; otherwise
the message fills the slot. -/
def GatewayState.DeliverResponse (s : GatewayState) (id : String) :
    GatewayState × Option PErr :=
  match s.pending.lookup id with
  | none => (s, some (.protocol ("no pending request for ID " ++ id)))
  | some full =>
    if full then (s, some (.protocol ("response channel full for ID " ++ id)))
    else ({ s with pending :=
              s.pending.map (fun p => if p.1 = id then (p.1, true) else p) }, none)

/-- C8: `Close` is idempotent — a second close returns nil and the
underlying connection is closed exactly once; after close, every gateway
operation fails with `connection-closed`; and `DeliverResponse` fails with
a protocol error both for an unknown id and for an already-full slot. -/
theorem C8_proxy_close_and_protocol (s : GatewayState) (ce : Option PErr) :
    (s.closed = false →
      (s.Close ce).1.closed = true ∧
      (s.Close ce).1.connCloseCount = s.connCloseCount + 1 ∧
      ((s.Close ce).1.Close ce).2 = none ∧
      ((s.Close ce).1.Close ce).1 = (s.Close ce).1) ∧
    (∀ (α : Type) (rest : Except PErr α) (steps : List String)
        (rest2 : Except PErr (List String)), s.closed = true →
      s.SearchTools rest = .error .connectionClosed ∧
      s.ListNamespaces rest = .error .connectionClosed ∧
      s.DescribeTool rest = .error .connectionClosed ∧
      s.ListToolExamples rest = .error .connectionClosed ∧
      s.RunTool rest = .error .connectionClosed ∧
      s.RunChain steps rest2 = .error .connectionClosed) ∧
    (∀ id, s.pending.lookup id = none →
      (s.DeliverResponse id).2 =
        some (.protocol ("no pending request for ID " ++ id)) ∧
      (s.DeliverResponse id).1 = s) ∧
    (∀ id, s.pending.lookup id = some true →
      (s.DeliverResponse id).2 =
        some (.protocol ("response channel full for ID " ++ id)) ∧
      (s.DeliverResponse id).1 = s) := by
  refine ⟨?_, ?_, ?_, ?_⟩
  · intro h
    simp [GatewayState.Close, h]
  · intro α rest steps rest2 h
    simp [GatewayState.SearchTools, GatewayState.ListNamespaces,
      GatewayState.DescribeTool, GatewayState.ListToolExamples,
      GatewayState.RunTool, GatewayState.RunChain, h]
  · intro id h
    simp [GatewayState.DeliverResponse, h]
  · intro id h
    simp [GatewayState.DeliverResponse, h]

theorem C8_witness :
    ((({} : GatewayState).Close none).1.closed = true ∧
     (({} : GatewayState).Close none).1.connCloseCount = 0 + 1 ∧
     ((({} : GatewayState).Close none).1.Close none).2 = none ∧
     ((({} : GatewayState).Close none).1.Close none).1 =
       (({} : GatewayState).Close none).1) ∧
    (({ closed := true } : GatewayState).SearchTools (.ok ([] : List Nat)) =
      .error .connectionClosed) ∧
    (({ closed := true } : GatewayState).RunChain [] (.ok []) =
      .error .connectionClosed) ∧
    ((({ pending := [("1", false)] } : GatewayState).DeliverResponse "2").2 =
      some (.protocol ("no pending request for ID " ++ "2"))) ∧
    ((({ pending := [("1", true)] } : GatewayState).DeliverResponse "1").2 =
      some (.protocol ("response channel full for ID " ++ "1"))) := by
  have h1 := (C8_proxy_close_and_protocol ({} : GatewayState) none).1 rfl
  have h2 := ((C8_proxy_close_and_protocol ({ closed := true } : GatewayState)
      none).2.1) (List Nat) (.ok []) [] (.ok []) rfl
  have h3 := ((C8_proxy_close_and_protocol
      ({ pending := [("1", false)] } : GatewayState) none).2.2.1) "2" (by decide)
  have h4 := ((C8_proxy_close_and_protocol
      ({ pending := [("1", true)] } : GatewayState) none).2.2.2) "1" (by decide)
  exact ⟨⟨h1.1, h1.2.1, h1.2.2.1, h1.2.2.2⟩, h2.1, h2.2.2.2.2.2, h3.1, h4.1⟩

end Proxy

namespace HostBackend

/-- The two values Go's `ctx.Err()` takes once a composed cancel/deadline
handle has fired: ambient cancellation or deadline expiry. -/
inductive CtxErr where
  | canceled
  | deadlineExceeded
deriving DecidableEq, Repr

/-- The message of the corresponding Go context error. -/
def CtxErr.errMsg : CtxErr → String
  | .canceled => "context canceled"
  | .deadlineExceeded => "context deadline exceeded"

/-- Error kinds relevant to the subprocess path of the host backend: the
`ErrTimeout` and `ErrSubprocessFailed` sentinels it wraps, plus a
`canceled` kind (Go's `context.Canceled` sentinel) that appears in the
claim's vocabulary but is never wrapped by this path — the format verb for
the context error is `%v`, not `%w`. -/
inductive UKind where
  | timeout
  | subprocessFailed
  | canceled
deriving DecidableEq, Repr

/-- An error returned by the subprocess path: the sentinel kind wrapped
with `%w`, plus the formatted message. -/
structure UErr where
  kind : UKind
  msg : String := ""
deriving DecidableEq, Repr

/-- `extractOutValue` from the host backend: the first stdout line carrying
the `__OUT__:` sentinel prefix yields the value payload (the JSON decoding
of the payload is abstracted: the embedded value is the raw payload
string). -/
def extractOutValue (stdout : String) : Option String :=
  (stdout.splitOn "\n").findSome? (fun line =>
    if line.startsWith "__OUT__:" then some (line.drop 8) else none)

/-- The classification tail of `executeSubprocess` in the host backend:
after `cmd.Run` returns, a command error with a fired context — whichever
of the two context errors fired — is classified as `ErrTimeout` wrapping
the context error's message; a command error with a live context is
`ErrSubprocessFailed`; on success the sentinel-framed value is extracted
from stdout. -/
def subprocessOutcome (cmdErr : Bool) (ctxErr : Option CtxErr)
    (stdout stderr : String) : Toolruntime.ExecuteResult × Option UErr :=
  let result : Toolruntime.ExecuteResult := { Stdout := stdout, Stderr := stderr }
  if cmdErr then
    match ctxErr with
    | some ce => (result, some { kind := .timeout, msg := ce.errMsg })
    | none => (result, some { kind := .subprocessFailed, msg := stderr })
  else
    ({ result with Value := extractOutValue stdout }, none)

/-- C9 counterexample: a subprocess killed by ambient cancellation before
the deadline (`ctx.Err() = context.Canceled`) is reported as the `timeout`
kind, not as `cancelled` — the claim's cancelled case does not occur. -/
theorem C9_counterexample :
    (subprocessOutcome true (some .canceled) "" "").2 =
      some { kind := .timeout, msg := "context canceled" } ∧
    UKind.timeout ≠ .canceled := by
  constructor
  · rfl
  · decide

/-- C9 (amended): whenever the composed cancel/deadline handle stops a
subprocess execution — whether the deadline expired or the ambient handle
fired — the returned error wraps the `timeout` kind (with the context
error's message) and never the `cancelled` kind; a command failure with a
live context is `subprocess-failed`; a successful run returns no error. -/
theorem C9_subprocess_stop_classification (stdout stderr : String) :
    (∀ ce : CtxErr,
      (subprocessOutcome true (some ce) stdout stderr).2 =
        some { kind := .timeout, msg := ce.errMsg } ∧
      ∀ e, (subprocessOutcome true (some ce) stdout stderr).2 = some e →
        e.kind ≠ .canceled) ∧
    ((subprocessOutcome true none stdout stderr).2 =
      some { kind := .subprocessFailed, msg := stderr }) ∧
    (∀ oce, (subprocessOutcome false oce stdout stderr).2 = none) := by
  refine ⟨?_, ?_, ?_⟩
  · intro ce
    constructor
    · rfl
    · intro e he
      simp [subprocessOutcome] at he
      rw [← he]
      simp
  · rfl
  · intro oce
    rfl

theorem C9_witness :
    ((subprocessOutcome true (some .deadlineExceeded) "out" "err").2 =
      some { kind := .timeout, msg := CtxErr.errMsg .deadlineExceeded } ∧
     (subprocessOutcome true none "out" "err").2 =
      some { kind := .subprocessFailed, msg := "err" }) ∧
    (subprocessOutcome false none "__OUT__:42" "").2 = none :=
  ⟨⟨((C9_subprocess_stop_classification "out" "err").1 .deadlineExceeded).1,
    (C9_subprocess_stop_classification "out" "err").2.1⟩,
   (C9_subprocess_stop_classification "__OUT__:42" "").2.2 none⟩

end HostBackend
